import Mathlib

/-!
Shallow embedding of the rule-based prediction/alerting decision logic of the
agri-with-ai backend (src/backend/app/routes/ml_models.py and the pydantic
input models in src/backend/app/models/schemas.py), with theorems checking the
specification's claims about it.  Real numbers of the Python code are embedded
as exact rationals.
-/

namespace AgriCore

/-- Input model `YieldPredictionInput` (schemas.py, lines 75-85).
Pydantic `Field` constraints exist only for `soil_ph` (ge=0, le=14) and
`soil_moisture` (ge=0, le=100); the remaining numeric fields are plain
floats. -/
structure YieldPredictionInput where
  crop : String
  soil_ph : ℚ
  soil_moisture : ℚ
  soil_nitrogen : ℚ
  soil_phosphorus : ℚ
  soil_potassium : ℚ
  temperature : ℚ
  humidity : ℚ
  rainfall : ℚ
  acres : ℚ
deriving DecidableEq

/-- Validation performed by pydantic on `YieldPredictionInput`: only the two
constrained fields are checked. -/
def YieldPredictionInput.validB (d : YieldPredictionInput) : Bool :=
  decide (0 ≤ d.soil_ph) && decide (d.soil_ph ≤ 14) &&
  decide (0 ≤ d.soil_moisture) && decide (d.soil_moisture ≤ 100)

/-- Input model `FieldData` (schemas.py, lines 62-72): every numeric field
carries a pydantic range constraint. -/
structure FieldData where
  crop : String
  soil_ph : ℚ
  soil_moisture : ℚ
  soil_nitrogen : ℚ
  soil_phosphorus : ℚ
  soil_potassium : ℚ
  temperature : ℚ
  humidity : ℚ
  rainfall : ℚ
  acres : ℚ
deriving DecidableEq

/-- Validation performed by pydantic on `FieldData` (all `Field` constraints,
including the crop string length bounds). -/
def FieldData.validB (d : FieldData) : Bool :=
  decide (2 ≤ d.crop.length) && decide (d.crop.length ≤ 50) &&
  decide (0 ≤ d.soil_ph) && decide (d.soil_ph ≤ 14) &&
  decide (0 ≤ d.soil_moisture) && decide (d.soil_moisture ≤ 100) &&
  decide (0 ≤ d.soil_nitrogen) && decide (0 ≤ d.soil_phosphorus) &&
  decide (0 ≤ d.soil_potassium) &&
  decide (-50 ≤ d.temperature) && decide (d.temperature ≤ 60) &&
  decide (0 ≤ d.humidity) && decide (d.humidity ≤ 100) &&
  decide (0 ≤ d.rainfall) && decide (0 < d.acres)

/-- The numeric bounds declared in spec section 3 for a FieldObservation,
written from the spec's words (for comparison with the code's validators). -/
def spec3BoundsHold (d : YieldPredictionInput) : Bool :=
  decide (0 ≤ d.soil_ph) && decide (d.soil_ph ≤ 14) &&
  decide (0 ≤ d.soil_moisture) && decide (d.soil_moisture ≤ 100) &&
  decide (0 ≤ d.soil_nitrogen) && decide (0 ≤ d.soil_phosphorus) &&
  decide (0 ≤ d.soil_potassium) &&
  decide (-50 ≤ d.temperature) && decide (d.temperature ≤ 60) &&
  decide (0 ≤ d.humidity) && decide (d.humidity ≤ 100) &&
  decide (0 ≤ d.rainfall) && decide (0 < d.acres)

/-- Input model `CropHealthInput` (schemas.py, lines 94-99). -/
structure CropHealthInput where
  crop : String
  ndvi_index : ℚ
  temperature : ℚ
  humidity : ℚ
  soil_moisture : ℚ
deriving DecidableEq

/-- Soil factor of `rule_based_yield_prediction` (ml_models.py, lines 292-303):
a pH adjustment and a moisture adjustment accumulate on the same variable. -/
def soil_factor (d : YieldPredictionInput) : ℚ :=
  let f : ℚ :=
    if 6 ≤ d.soil_ph ∧ d.soil_ph ≤ 7.5 then 1 + 0.1
    else if d.soil_ph < 5.5 ∨ d.soil_ph > 8 then 1 - 0.2
    else 1
  if 60 ≤ d.soil_moisture ∧ d.soil_moisture ≤ 80 then f + 0.15
  else if d.soil_moisture < 40 then f - 0.3
  else f

/-- Temperature factor (ml_models.py, lines 305-310). -/
def temp_factor (d : YieldPredictionInput) : ℚ :=
  if 20 ≤ d.temperature ∧ d.temperature ≤ 30 then 1 + 0.1
  else if d.temperature > 35 ∨ d.temperature < 10 then 1 - 0.2
  else 1

/-- Rainfall factor (ml_models.py, lines 312-317). -/
def rainfall_factor (d : YieldPredictionInput) : ℚ :=
  if 500 ≤ d.rainfall ∧ d.rainfall ≤ 1000 then 1 + 0.1
  else if d.rainfall < 300 then 1 - 0.2
  else 1

/-- Nutrient factor (ml_models.py, lines 319-326): three independent bonuses. -/
def nutrient_factor (d : YieldPredictionInput) : ℚ :=
  let f0 : ℚ := 1.0
  let f1 : ℚ := if d.soil_nitrogen > 50 then f0 + 0.05 else f0
  let f2 : ℚ := if d.soil_phosphorus > 20 then f1 + 0.05 else f1
  if d.soil_potassium > 150 then f2 + 0.05 else f2

/-- `rule_based_yield_prediction` (ml_models.py, lines 288-331): returns the
unrounded prediction together with the fixed confidence 0.7. -/
def rule_based_yield_prediction (d : YieldPredictionInput) : ℚ × ℚ :=
  let base_yield : ℚ := 50.0
  (base_yield * soil_factor d * temp_factor d * rainfall_factor d *
    nutrient_factor d * d.acres, 0.7)

/-- `rule_based_health_analysis` (ml_models.py, lines 333-366): additive score
adjustments followed by a clamp to [0,1]; fixed confidence 0.75. -/
def rule_based_health_analysis (d : CropHealthInput) : ℚ × ℚ :=
  let s0 : ℚ := 0.5
  let s1 : ℚ :=
    if d.ndvi_index > 0.6 then s0 + 0.3
    else if d.ndvi_index > 0.4 then s0 + 0.1
    else if d.ndvi_index < 0.2 then s0 - 0.3
    else s0
  let s2 : ℚ :=
    if 20 ≤ d.temperature ∧ d.temperature ≤ 30 then s1 + 0.1
    else if d.temperature > 35 ∨ d.temperature < 5 then s1 - 0.2
    else s1
  let s3 : ℚ :=
    if 50 ≤ d.humidity ∧ d.humidity ≤ 70 then s2 + 0.05
    else if d.humidity < 30 ∨ d.humidity > 90 then s2 - 0.1
    else s2
  let s4 : ℚ :=
    if 50 ≤ d.soil_moisture ∧ d.soil_moisture ≤ 80 then s3 + 0.1
    else if d.soil_moisture < 30 then s3 - 0.2
    else s3
  (max 0 (min 1 s4), 0.75)

/-- The health-score to status mapping of `analyze_crop_health`
(ml_models.py, lines 104-113), evaluated top-down. -/
def health_status_of (score : ℚ) : String :=
  if score ≥ 0.8 then "excellent"
  else if score ≥ 0.65 then "good"
  else if score ≥ 0.5 then "moderate"
  else if score ≥ 0.3 then "poor"
  else "critical"

/-- `generate_stress_indicators` (ml_models.py, lines 396-418). -/
def generate_stress_indicators (d : CropHealthInput) : List String :=
  (if d.ndvi_index < 0.4 then ["Low vegetation vigor detected"] else []) ++
  (if d.temperature > 35 then ["Heat stress risk"]
   else if d.temperature < 10 then ["Cold stress risk"] else []) ++
  (if d.humidity < 30 then ["Low humidity stress"]
   else if d.humidity > 85 then ["High humidity disease risk"] else []) ++
  (if d.soil_moisture < 30 then ["Water stress"]
   else if d.soil_moisture > 90 then ["Waterlogging risk"] else [])

/-- `generate_health_recommendations` (ml_models.py, lines 420-445).  The
`input_data` argument is kept because the source takes it, though the body
never reads it. -/
def generate_health_recommendations (_input_data : CropHealthInput)
    (health_status : String) (stress_indicators : List String) : List String :=
  (if health_status = "poor" ∨ health_status = "critical" then
    ["Immediate intervention required - consult agricultural expert",
     "Conduct thorough field inspection"]
   else []) ++
  (if "Heat stress risk" ∈ stress_indicators then
    ["Increase irrigation frequency and consider shade protection"] else []) ++
  (if "Water stress" ∈ stress_indicators then
    ["Implement immediate irrigation schedule"] else []) ++
  (if "Low vegetation vigor detected" ∈ stress_indicators then
    ["Check for nutrient deficiencies and pest issues",
     "Consider soil testing and fertilization"] else []) ++
  (if "High humidity disease risk" ∈ stress_indicators then
    ["Improve air circulation and consider fungicide application"] else []) ++
  (if health_status = "excellent" then
    ["Maintain current management practices",
     "Continue regular monitoring"] else [])

/-- `generate_yield_recommendations` (ml_models.py, lines 368-394). -/
def generate_yield_recommendations (d : YieldPredictionInput)
    (prediction : ℚ) : List String :=
  (if d.soil_ph < 6.0 then
    ["Consider liming to increase soil pH for better nutrient uptake"]
   else if d.soil_ph > 8.0 then
    ["Consider adding organic matter to lower soil pH"] else []) ++
  (if d.soil_moisture < 40 then
    ["Increase irrigation frequency to maintain optimal soil moisture"] else []) ++
  (if d.soil_nitrogen < 50 then
    ["Apply nitrogen fertilizer to boost crop growth"] else []) ++
  (if d.soil_phosphorus < 20 then
    ["Consider phosphorus supplementation for root development"] else []) ++
  (if d.temperature > 30 then
    ["Monitor for heat stress and consider shade protection"] else []) ++
  (if prediction < 40 then
    ["Current conditions may limit yield. Consider soil amendments and improved irrigation"]
   else if prediction > 80 then
    ["Excellent growing conditions. Maintain current management practices"]
   else [])

/-- Floor of a rational, computed from its normalized numerator and
denominator by floor division. -/
def floorQ (q : ℚ) : ℤ := q.num.fdiv q.den

/-- Round-half-to-even on rationals, mirroring Python's `round` at exact
decimal values. -/
def roundHalfEven (q : ℚ) : ℤ :=
  let f := floorQ q
  if q - f < 0.5 then f
  else if q - f > 0.5 then f + 1
  else if f % 2 = 0 then f else f + 1

/-- Python's `round(q, ndigits)`. -/
def pyRound (ndigits : ℕ) (q : ℚ) : ℚ :=
  (roundHalfEven (q * 10 ^ ndigits) : ℚ) / 10 ^ ndigits

/-- Output model `YieldPredictionOutput` (schemas.py, lines 87-92).  The
`created_at` field holds the value of `datetime.utcnow()` observed by the
call, embedded as an abstract clock reading. -/
structure YieldPredictionOutput where
  crop : String
  predicted_yield : ℚ
  confidence : ℚ
  recommendations : List String
  created_at : ℕ
deriving DecidableEq

/-- The ordered 9-feature vector built by `predict_yield`
(ml_models.py, lines 35-45). -/
def features (d : YieldPredictionInput) : List ℚ :=
  [d.soil_ph, d.soil_moisture, d.soil_nitrogen, d.soil_phosphorus,
   d.soil_potassium, d.temperature, d.humidity, d.rainfall, d.acres]

/-- An injected regression capability: `none` for the whole argument means no
model is loaded in the cache; a loaded model maps the feature vector to
`some` prediction, or to `none` when its `predict` call raises. -/
abbrev ModelCap := List ℚ → Option ℚ

/-- Endpoint `predict_yield` (ml_models.py, lines 25-67): model strategy with
confidence 0.85 when the injected model succeeds, rule-based fallback when it
is absent or raises; yield rounded to 2 decimals, confidence to 3; the
response captures the current clock as `created_at`. -/
def predict_yield (model : Option ModelCap) (d : YieldPredictionInput)
    (now : ℕ) : YieldPredictionOutput :=
  let pc : ℚ × ℚ :=
    match model with
    | some m =>
      match m (features d) with
      | some pred => (pred, 0.85)
      | none => rule_based_yield_prediction d
    | none => rule_based_yield_prediction d
  { crop := d.crop
    predicted_yield := pyRound 2 pc.1
    confidence := pyRound 3 pc.2
    recommendations := generate_yield_recommendations d pc.1
    created_at := now }

/-- Output model `CropHealthOutput` (schemas.py, lines 101-106). -/
structure CropHealthOutput where
  crop : String
  health_status : String
  stress_indicators : List String
  recommendations : List String
  confidence : ℚ
deriving DecidableEq

/-- Endpoint `analyze_crop_health` (ml_models.py, lines 75-125): model
strategy with fixed confidence 0.80, rule-based fallback; score mapped to a
status, then stress indicators and recommendations are generated. -/
def analyze_crop_health (model : Option ModelCap) (d : CropHealthInput) :
    CropHealthOutput :=
  let sc : ℚ × ℚ :=
    match model with
    | some m =>
      match m [d.ndvi_index, d.temperature, d.humidity, d.soil_moisture] with
      | some s => (s, 0.80)
      | none => rule_based_health_analysis d
    | none => rule_based_health_analysis d
  let health_status := health_status_of sc.1
  let stress_indicators := generate_stress_indicators d
  { crop := d.crop
    health_status := health_status
    stress_indicators := stress_indicators
    recommendations := generate_health_recommendations d health_status stress_indicators
    confidence := pyRound 3 sc.2 }

/-- The conditions record evaluated by the alert rules
(the `mock_conditions` dictionary of ml_models.py, lines 147-153). -/
structure Conditions where
  temperature : ℚ
  humidity : ℚ
  soil_moisture : ℚ
  rainfall_forecast : ℚ
  wind_speed : ℚ
deriving DecidableEq

/-- An alert record as built by `generate_alerts`. -/
structure Alert where
  type : String
  severity : String
  title : String
  message : String
  recommendations : List String
  priority : ℕ
deriving DecidableEq

/-- The unconditional "Seasonal Nutrient Check" alert appended by
`generate_alerts` (ml_models.py, lines 221-233). -/
def nutrient_check_alert : Alert :=
  { type := "disease", severity := "low", title := "Seasonal Nutrient Check",
    message := "Consider soil testing for optimal nutrient management.",
    recommendations :=
      ["Schedule soil nutrient analysis",
       "Monitor crop color for nutrient deficiency signs",
       "Plan fertilization schedule",
       "Consider organic amendments"],
    priority := 4 }

/-- The alert list synthesized by `generate_alerts` before sorting
(ml_models.py, lines 155-233): four conditional rules followed by the
unconditional nutrient-check alert. -/
def raw_alerts (c : Conditions) : List Alert :=
  (if c.temperature > 35 then
    [{ type := "weather", severity := "high", title := "Heat Stress Warning",
       message := "Temperature is " ++ toString c.temperature ++
         "°C. Crops may experience heat stress.",
       recommendations :=
         ["Increase irrigation frequency",
          "Consider shade netting for sensitive crops",
          "Monitor crops for wilting signs",
          "Harvest early morning if possible"],
       priority := 1 }]
   else []) ++
  (if c.soil_moisture < 30 then
    let severity := if c.soil_moisture < 20 then "critical" else "high"
    [{ type := "irrigation", severity := severity,
       title := "Low Soil Moisture Alert",
       message := "Soil moisture is at " ++ toString c.soil_moisture ++
         "%. Immediate irrigation recommended.",
       recommendations :=
         ["Start irrigation immediately",
          "Check irrigation system for blockages",
          "Monitor soil moisture levels hourly",
          "Consider drip irrigation for efficiency"],
       priority := if severity = "critical" then 1 else 2 }]
   else []) ++
  (if c.humidity > 80 ∧ c.temperature > 25 then
    [{ type := "pest", severity := "medium", title := "Fungal Disease Risk",
       message := "High humidity and temperature create favorable conditions for fungal diseases.",
       recommendations :=
         ["Apply preventive fungicide spray",
          "Improve air circulation around plants",
          "Reduce irrigation frequency temporarily",
          "Monitor leaves for early disease signs"],
       priority := 3 }]
   else []) ++
  (if c.wind_speed > 15 then
    [{ type := "weather", severity := "medium", title := "High Wind Advisory",
       message := "Wind speed is " ++ toString c.wind_speed ++
         " km/h. Protect vulnerable crops.",
       recommendations :=
         ["Install windbreaks for young plants",
          "Secure support stakes and ties",
          "Postpone pesticide applications",
          "Check for physical crop damage after wind subsides"],
       priority := 3 }]
   else []) ++
  [nutrient_check_alert]

/-- Stable insertion into a list ordered by priority: the new element goes
after every element of smaller priority and before the first element of equal
or larger priority. -/
def insertByPriority (a : Alert) : List Alert → List Alert
  | [] => [a]
  | b :: l =>
    if b.priority < a.priority then b :: insertByPriority a l
    else a :: b :: l

/-- Stable sort ascending by priority, mirroring Python's stable
`list.sort(key=priority)` (ml_models.py, line 236). -/
def sortByPriority (l : List Alert) : List Alert :=
  l.foldr insertByPriority []

/-- The alert list returned by `generate_alerts` for a conditions record:
synthesis then stable ascending sort by priority. -/
def synthesize_alerts (c : Conditions) : List Alert :=
  sortByPriority (raw_alerts c)

/-- The hardcoded `mock_conditions` record (ml_models.py, lines 147-153). -/
def mock_conditions : Conditions :=
  { temperature := 35.5, humidity := 45, soil_moisture := 25,
    rainfall_forecast := 0, wind_speed := 20 }

/-- The response payload assembled by `generate_alerts`
(ml_models.py, lines 238-245). -/
structure AlertsResponse where
  farmer_id : ℤ
  generated_at : ℕ
  conditions : Conditions
  alerts : List Alert
  total_alerts : ℕ
  high_priority_alerts : ℕ
deriving DecidableEq

/-- Endpoint `generate_alerts` (ml_models.py, lines 133-245): evaluates the
alert rules on the hardcoded `mock_conditions`, ignoring everything about the
caller except the echoed `farmer_id` and the captured clock. -/
def generate_alerts (farmer_id : ℤ) (now : ℕ) : AlertsResponse :=
  let alerts := synthesize_alerts mock_conditions
  { farmer_id := farmer_id
    generated_at := now
    conditions := mock_conditions
    alerts := alerts
    total_alerts := alerts.length
    high_priority_alerts :=
      (alerts.filter (fun a => ["critical", "high"].contains a.severity)).length }

/-- The worked example input of spec section 8. -/
def exampleInput : YieldPredictionInput :=
  { crop := "wheat", soil_ph := 7.0, soil_moisture := 70, soil_nitrogen := 60,
    soil_phosphorus := 30, soil_potassium := 200, temperature := 25,
    humidity := 60, rainfall := 700, acres := 2 }

/-- The example input with a negative nitrogen reading; every constrained
field is in range. -/
def negNitrogenInput : YieldPredictionInput :=
  { exampleInput with soil_nitrogen := -5 }

/-- The example input with nutrients exactly at the bonus thresholds. -/
def thresholdInput : YieldPredictionInput :=
  { exampleInput with
      soil_nitrogen := 50
      soil_phosphorus := 20
      soil_potassium := 150 }

/-- The example input with `soil_ph = 15`. -/
def ph15Input : YieldPredictionInput :=
  { exampleInput with soil_ph := 15 }

/-- A crop-health observation whose only stress indicator is cold stress. -/
def coldInput : CropHealthInput :=
  { crop := "wheat", ndvi_index := 0.5, temperature := 5, humidity := 50,
    soil_moisture := 50 }

/-- An extreme crop-health observation: NDVI at -1 and temperature at 60. -/
def extremeInput : CropHealthInput :=
  { crop := "wheat", ndvi_index := -1, temperature := 60, humidity := 0,
    soil_moisture := 0 }

/-- Membership in an insertion is membership in the original or equality with
the inserted alert. -/
theorem mem_insertByPriority {x a : Alert} {l : List Alert} :
    x ∈ insertByPriority a l ↔ x = a ∨ x ∈ l := by
  induction l with
  | nil => simp [insertByPriority]
  | cons b l ih =>
    unfold insertByPriority
    split
    · simp [ih]; tauto
    · simp

/-- Insertion is a permutation of consing. -/
theorem insertByPriority_perm (a : Alert) (l : List Alert) :
    List.Perm (insertByPriority a l) (a :: l) := by
  induction l with
  | nil => rfl
  | cons b l ih =>
    unfold insertByPriority
    split
    · exact ((ih.cons b).trans (List.Perm.swap a b l))
    · rfl

/-- The stable sort permutes its input. -/
theorem sortByPriority_perm (l : List Alert) : List.Perm (sortByPriority l) l := by
  induction l with
  | nil => rfl
  | cons a l ih => exact (insertByPriority_perm a _).trans (ih.cons a)

/-- Insertion preserves the sortedness invariant. -/
theorem insertByPriority_pairwise {a : Alert} {l : List Alert}
    (h : l.Pairwise (fun x y => x.priority ≤ y.priority)) :
    (insertByPriority a l).Pairwise (fun x y => x.priority ≤ y.priority) := by
  induction l with
  | nil => simp [insertByPriority]
  | cons b l ih =>
    rw [List.pairwise_cons] at h
    unfold insertByPriority
    split
    · rename_i hb
      rw [List.pairwise_cons]
      refine ⟨fun x hx => ?_, ih h.2⟩
      rcases mem_insertByPriority.mp hx with rfl | hx
      · exact le_of_lt hb
      · exact h.1 x hx
    · rename_i hb
      rw [List.pairwise_cons]
      refine ⟨fun x hx => ?_, List.pairwise_cons.mpr h⟩
      rcases List.mem_cons.mp hx with rfl | hx
      · exact Nat.le_of_not_lt hb
      · exact le_trans (Nat.le_of_not_lt hb) (h.1 x hx)

/-- The stable sort produces a list ascending by priority. -/
theorem sortByPriority_pairwise (l : List Alert) :
    (sortByPriority l).Pairwise (fun x y => x.priority ≤ y.priority) := by
  induction l with
  | nil => simp [sortByPriority]
  | cons a l ih => exact insertByPriority_pairwise ih

/-- Inserting an alert does not disturb the subsequence of any fixed
priority, except for prepending the new alert when it carries that
priority: this is exactly stability of the insertion. -/
theorem insertByPriority_filter (a : Alert) (l : List Alert) (p : ℕ) :
    (insertByPriority a l).filter (fun x => x.priority == p) =
      if a.priority = p then a :: l.filter (fun x => x.priority == p)
      else l.filter (fun x => x.priority == p) := by
  induction l with
  | nil => by_cases h : a.priority = p <;> simp [insertByPriority, h]
  | cons b l ih =>
    unfold insertByPriority
    split
    · rename_i hb
      by_cases hbp : b.priority = p
      · have hap : ¬ a.priority = p := by omega
        simp [List.filter_cons, hbp, hap, ih]
      · simp [List.filter_cons, hbp, ih]
    · by_cases hap : a.priority = p <;>
        simp [List.filter_cons, hap]

/-- Stability of the sort: for every priority value, the subsequence of
alerts carrying that priority is unchanged, so ties keep insertion order. -/
theorem sortByPriority_filter (l : List Alert) (p : ℕ) :
    (sortByPriority l).filter (fun x => x.priority == p) =
      l.filter (fun x => x.priority == p) := by
  induction l with
  | nil => rfl
  | cons a l ih =>
    show (insertByPriority a (sortByPriority l)).filter _ = _
    rw [insertByPriority_filter, List.filter_cons]
    by_cases hap : a.priority = p
    · simp [hap, ih]
    · simp [hap, ih]

/-- The nutrient-check alert is in every synthesized raw list. -/
theorem nutrient_check_mem_raw (c : Conditions) :
    nutrient_check_alert ∈ raw_alerts c := by
  unfold raw_alerts
  simp

/-- The Bool validator of `FieldData` accepts exactly the records inside all
declared ranges. -/
theorem FieldData_validB_iff (d : FieldData) : d.validB = true ↔
    (2 ≤ d.crop.length ∧ d.crop.length ≤ 50 ∧
     0 ≤ d.soil_ph ∧ d.soil_ph ≤ 14 ∧
     0 ≤ d.soil_moisture ∧ d.soil_moisture ≤ 100 ∧
     0 ≤ d.soil_nitrogen ∧ 0 ≤ d.soil_phosphorus ∧ 0 ≤ d.soil_potassium ∧
     -50 ≤ d.temperature ∧ d.temperature ≤ 60 ∧
     0 ≤ d.humidity ∧ d.humidity ≤ 100 ∧ 0 ≤ d.rainfall ∧ 0 < d.acres) := by
  simp [FieldData.validB, and_assoc]

/-- The Bool validator of `YieldPredictionInput` checks only the pH and
moisture ranges. -/
theorem YieldInput_validB_iff (d : YieldPredictionInput) : d.validB = true ↔
    (0 ≤ d.soil_ph ∧ d.soil_ph ≤ 14 ∧
     0 ≤ d.soil_moisture ∧ d.soil_moisture ≤ 100) := by
  simp [YieldPredictionInput.validB, and_assoc]

/-- The spec-side bounds predicate unfolded to its conjuncts. -/
theorem spec3BoundsHold_iff (d : YieldPredictionInput) :
    spec3BoundsHold d = true ↔
    (0 ≤ d.soil_ph ∧ d.soil_ph ≤ 14 ∧
     0 ≤ d.soil_moisture ∧ d.soil_moisture ≤ 100 ∧
     0 ≤ d.soil_nitrogen ∧ 0 ≤ d.soil_phosphorus ∧ 0 ≤ d.soil_potassium ∧
     -50 ≤ d.temperature ∧ d.temperature ≤ 60 ∧
     0 ≤ d.humidity ∧ d.humidity ≤ 100 ∧ 0 ≤ d.rainfall ∧ 0 < d.acres) := by
  simp [spec3BoundsHold, and_assoc]

/-- Claim C1, counterexample: on the worked example input the rule-based
yield is 173.9375, not the 174.3125 stated by the claim (the product
50 × 1.25 × 1.1 × 1.1 × 1.15 × 2 equals 173.9375). -/
theorem c1_yield_value_counterexample :
    (rule_based_yield_prediction exampleInput).1 = 173.9375 ∧
    (173.9375 : ℚ) ≠ 174.3125 := by
  constructor
  · norm_num [rule_based_yield_prediction, soil_factor, temp_factor,
      rainfall_factor, nutrient_factor, exampleInput]
  · norm_num

/-- Claim C1 (amended): on the input ph=7.0, moisture=70, nitrogen=60,
phosphorus=30, potassium=200, temperature=25, humidity=60, rainfall=700,
acres=2 the rule-based strategy computes factors soil=1.25, temp=1.1,
rainfall=1.1, nutrient=1.15 and returns the prediction
50 × 1.25 × 1.1 × 1.1 × 1.15 × 2 = 173.9375 with confidence 0.7. -/
theorem c1_example_evaluation :
    soil_factor exampleInput = 1.25 ∧ temp_factor exampleInput = 1.1 ∧
    rainfall_factor exampleInput = 1.1 ∧ nutrient_factor exampleInput = 1.15 ∧
    rule_based_yield_prediction exampleInput = (173.9375, 0.7) := by
  refine ⟨?_, ?_, ?_, ?_, ?_⟩ <;>
    norm_num [rule_based_yield_prediction, soil_factor, temp_factor,
      rainfall_factor, nutrient_factor, exampleInput, Prod.ext_iff]

/-- Claim C2, counterexample: the input model guarding yield predictions
accepts a record whose nitrogen reading is negative, violating the declared
nitrogen ≥ 0 bound, so not every out-of-range value is rejected before a
prediction is computed. -/
theorem c2_unchecked_field_counterexample :
    YieldPredictionInput.validB negNitrogenInput = true ∧
    spec3BoundsHold negNitrogenInput = false ∧
    negNitrogenInput.soil_nitrogen < 0 := by
  refine ⟨(YieldInput_validB_iff _).mpr ?_, ?_, ?_⟩
  · norm_num [negNitrogenInput, exampleInput]
  · rw [← Bool.not_eq_true]
    intro h
    have hc := (spec3BoundsHold_iff _).mp h
    norm_num [negNitrogenInput, exampleInput] at hc
  · norm_num [negNitrogenInput, exampleInput]

/-- Claim C2 (amended): `FieldData` validation enforces exactly the declared
bounds on every field, but `YieldPredictionInput` — the model validated
before a yield prediction — enforces only soil_ph ∈ [0,14] and
soil_moisture ∈ [0,100], silently accepting out-of-range values of the
remaining fields; soil_ph=15 and soil_moisture=-5 are rejected by both
models. -/
theorem c2_validation_ranges :
    (∀ d : FieldData, d.validB = true ↔
      (2 ≤ d.crop.length ∧ d.crop.length ≤ 50 ∧
       0 ≤ d.soil_ph ∧ d.soil_ph ≤ 14 ∧
       0 ≤ d.soil_moisture ∧ d.soil_moisture ≤ 100 ∧
       0 ≤ d.soil_nitrogen ∧ 0 ≤ d.soil_phosphorus ∧ 0 ≤ d.soil_potassium ∧
       -50 ≤ d.temperature ∧ d.temperature ≤ 60 ∧
       0 ≤ d.humidity ∧ d.humidity ≤ 100 ∧ 0 ≤ d.rainfall ∧ 0 < d.acres)) ∧
    (∀ d : YieldPredictionInput, d.validB = true ↔
      (0 ≤ d.soil_ph ∧ d.soil_ph ≤ 14 ∧
       0 ≤ d.soil_moisture ∧ d.soil_moisture ≤ 100)) ∧
    (∀ d : YieldPredictionInput, d.soil_ph = 15 → d.validB = false) ∧
    (∀ d : YieldPredictionInput, d.soil_moisture = -5 → d.validB = false) ∧
    (∀ d : FieldData, d.soil_ph = 15 → d.validB = false) ∧
    (∀ d : FieldData, d.soil_moisture = -5 → d.validB = false) := by
  refine ⟨fun d => FieldData_validB_iff d, fun d => YieldInput_validB_iff d,
    fun d h => ?_, fun d h => ?_, fun d h => ?_, fun d h => ?_⟩
  · cases hb : d.validB
    · rfl
    · exfalso
      have hc := (YieldInput_validB_iff d).mp hb
      rw [h] at hc
      norm_num at hc
  · cases hb : d.validB
    · rfl
    · exfalso
      have hc := (YieldInput_validB_iff d).mp hb
      rw [h] at hc
      norm_num at hc
  · cases hb : d.validB
    · rfl
    · exfalso
      have hc := (FieldData_validB_iff d).mp hb
      rw [h] at hc
      norm_num at hc
  · cases hb : d.validB
    · rfl
    · exfalso
      have hc := (FieldData_validB_iff d).mp hb
      rw [h] at hc
      norm_num at hc

/-- Witness for C2 (amended): the example input with soil_ph = 15 is
rejected by the validator. -/
theorem c2_validation_ranges_witness :
    YieldPredictionInput.validB ph15Input = false :=
  c2_validation_ranges.2.2.1 ph15Input rfl

/-- Claim C3: when the injected yield model is present but its predict call
fails on the given features, `predict_yield` returns exactly the output of
the rule-based path — the rounded rule-based prediction and its confidence —
and no error escapes. -/
theorem c3_model_failure_falls_back (m : ModelCap) (d : YieldPredictionInput)
    (now : ℕ) (h : m (features d) = none) :
    predict_yield (some m) d now = predict_yield none d now ∧
    (predict_yield (some m) d now).predicted_yield =
      pyRound 2 (rule_based_yield_prediction d).1 ∧
    (predict_yield (some m) d now).confidence =
      pyRound 3 (rule_based_yield_prediction d).2 := by
  refine ⟨?_, ?_, ?_⟩ <;> simp [predict_yield, h]

/-- Witness for C3: a model that always raises falls back to the rule-based
output on the worked example input. -/
theorem c3_model_failure_falls_back_witness :
    predict_yield (some fun _ => none) exampleInput 0 =
      predict_yield none exampleInput 0 :=
  (c3_model_failure_falls_back (fun _ => none) exampleInput 0 rfl).1

/-- Claim C4, counterexample: the health classifier on an observation with
temperature 5 produces the stress indicator "Cold stress risk" but an empty
recommendation list, so not every stress indicator triggers a companion
recommendation. -/
theorem c4_cold_indicator_counterexample :
    (analyze_crop_health none coldInput).stress_indicators = ["Cold stress risk"] ∧
    (analyze_crop_health none coldInput).recommendations = [] := by
  refine ⟨?_, ?_⟩
  · norm_num [analyze_crop_health, generate_stress_indicators, coldInput]
  · norm_num [analyze_crop_health, generate_stress_indicators,
      generate_health_recommendations, rule_based_health_analysis,
      health_status_of, coldInput, min_def, max_def]
    try decide

/-- Claim C4 (amended): when the status is poor or critical the
recommendations begin with the expert-consult and inspection advice in that
order; the four indicators "Heat stress risk", "Water stress",
"Low vegetation vigor detected" and "High humidity disease risk" each
trigger their fixed companion recommendation; status excellent appends the
maintain and monitor advice at the end; the remaining three indicators
("Cold stress risk", "Low humidity stress", "Waterlogging risk") trigger no
recommendation at all. -/
theorem c4_health_recommendation_rules (d : CropHealthInput) (st : String)
    (ind : List String) :
    ((st = "poor" ∨ st = "critical") →
      List.IsPrefix
        ["Immediate intervention required - consult agricultural expert",
         "Conduct thorough field inspection"]
        (generate_health_recommendations d st ind)) ∧
    ("Heat stress risk" ∈ ind →
      "Increase irrigation frequency and consider shade protection" ∈
        generate_health_recommendations d st ind) ∧
    ("Water stress" ∈ ind →
      "Implement immediate irrigation schedule" ∈
        generate_health_recommendations d st ind) ∧
    ("Low vegetation vigor detected" ∈ ind →
      "Check for nutrient deficiencies and pest issues" ∈
        generate_health_recommendations d st ind ∧
      "Consider soil testing and fertilization" ∈
        generate_health_recommendations d st ind) ∧
    ("High humidity disease risk" ∈ ind →
      "Improve air circulation and consider fungicide application" ∈
        generate_health_recommendations d st ind) ∧
    (st = "excellent" →
      List.IsSuffix
        ["Maintain current management practices", "Continue regular monitoring"]
        (generate_health_recommendations d st ind)) ∧
    (st ≠ "poor" → st ≠ "critical" → st ≠ "excellent" →
      (∀ s ∈ ind, s = "Cold stress risk" ∨ s = "Low humidity stress" ∨
        s = "Waterlogging risk") →
      generate_health_recommendations d st ind = []) := by
  refine ⟨?_, ?_, ?_, ?_, ?_, ?_, ?_⟩
  · intro h
    unfold generate_health_recommendations
    rw [if_pos h]
    exact ⟨_, rfl⟩
  · intro h
    simp [generate_health_recommendations, h]
  · intro h
    simp [generate_health_recommendations, h]
  · intro h
    constructor <;> simp [generate_health_recommendations, h]
  · intro h
    simp [generate_health_recommendations, h]
  · intro h
    subst h
    unfold generate_health_recommendations
    rw [if_neg (by simp), if_pos rfl]
    exact List.suffix_append _ _
  · intro h1 h2 h3 h4
    have hh : "Heat stress risk" ∉ ind := fun hm => by
      rcases h4 _ hm with h | h | h <;> simp_all
    have hw : "Water stress" ∉ ind := fun hm => by
      rcases h4 _ hm with h | h | h <;> simp_all
    have hv : "Low vegetation vigor detected" ∉ ind := fun hm => by
      rcases h4 _ hm with h | h | h <;> simp_all
    have hu : "High humidity disease risk" ∉ ind := fun hm => by
      rcases h4 _ hm with h | h | h <;> simp_all
    simp [generate_health_recommendations, h1, h2, h3, hh, hw, hv, hu]

/-- Witness for C4 (amended): with the single indicator "Heat stress risk"
its companion recommendation is produced. -/
theorem c4_health_recommendation_rules_witness :
    "Increase irrigation frequency and consider shade protection" ∈
      generate_health_recommendations coldInput "good" ["Heat stress risk"] :=
  (c4_health_recommendation_rules coldInput "good" ["Heat stress risk"]).2.1
    (by simp)

/-- Claim C5, counterexample: `predict_yield` captures the current clock in
the `created_at` field of its output, so two calls on identical input made
at different instants return different outputs. -/
theorem c5_timestamp_counterexample :
    predict_yield none exampleInput 0 ≠ predict_yield none exampleInput 1 := by
  intro h
  have hc := congrArg YieldPredictionOutput.created_at h
  simp [predict_yield] at hc

/-- Claim C5 (amended): for a fixed injected model both endpoints are pure
functions of their input: two `predict_yield` calls on identical input agree
on every field except the captured `created_at` timestamp, and two
`analyze_crop_health` calls on identical input return identical outputs. -/
theorem c5_determinism_modulo_timestamp (model : Option ModelCap)
    (d : YieldPredictionInput) (t₁ t₂ : ℕ) (mh : Option ModelCap)
    (h : CropHealthInput) :
    predict_yield model d t₁ =
      { predict_yield model d t₂ with created_at := t₁ } ∧
    analyze_crop_health mh h = analyze_crop_health mh h :=
  ⟨rfl, rfl⟩

/-- Witness for C5 (amended): concrete instantiation at the example input
and two distinct clock readings. -/
theorem c5_determinism_modulo_timestamp_witness :
    predict_yield none exampleInput 0 =
      { predict_yield none exampleInput 1 with created_at := 0 } ∧
    analyze_crop_health none coldInput = analyze_crop_health none coldInput :=
  c5_determinism_modulo_timestamp none exampleInput 0 1 none coldInput

/-- Claim C6, counterexample: the worked example input satisfies every
hypothesis of the claim — ph, moisture, temperature and rainfall in their
optimal bands and no nutrient below its threshold — yet its rule-based yield
differs from 50 × 1.25 × 1.1 × 1.1 × 1.0 × acres, because nutrients above
the thresholds raise the nutrient factor to 1.15. -/
theorem c6_nutrient_band_counterexample :
    6 ≤ exampleInput.soil_ph ∧ exampleInput.soil_ph ≤ 7.5 ∧
    60 ≤ exampleInput.soil_moisture ∧ exampleInput.soil_moisture ≤ 80 ∧
    20 ≤ exampleInput.temperature ∧ exampleInput.temperature ≤ 30 ∧
    500 ≤ exampleInput.rainfall ∧ exampleInput.rainfall ≤ 1000 ∧
    50 ≤ exampleInput.soil_nitrogen ∧ 20 ≤ exampleInput.soil_phosphorus ∧
    150 ≤ exampleInput.soil_potassium ∧
    (rule_based_yield_prediction exampleInput).1 ≠
      50 * 1.25 * 1.1 * 1.1 * 1.0 * exampleInput.acres := by
  norm_num [rule_based_yield_prediction, soil_factor, temp_factor,
    rainfall_factor, nutrient_factor, exampleInput]

/-- Claim C6 (amended): for every input with ph in [6.0,7.5], moisture in
[60,80], temperature in [20,30], rainfall in [500,1000] and all nutrients at
or below their bonus thresholds (nitrogen ≤ 50, phosphorus ≤ 20,
potassium ≤ 150), the rule-based yield equals
50 × 1.25 × 1.1 × 1.1 × 1.0 × acres. -/
theorem c6_optimal_band_yield (d : YieldPredictionInput)
    (hph1 : 6 ≤ d.soil_ph) (hph2 : d.soil_ph ≤ 7.5)
    (hm1 : 60 ≤ d.soil_moisture) (hm2 : d.soil_moisture ≤ 80)
    (ht1 : 20 ≤ d.temperature) (ht2 : d.temperature ≤ 30)
    (hr1 : 500 ≤ d.rainfall) (hr2 : d.rainfall ≤ 1000)
    (hn : d.soil_nitrogen ≤ 50) (hp : d.soil_phosphorus ≤ 20)
    (hk : d.soil_potassium ≤ 150) :
    (rule_based_yield_prediction d).1 =
      50 * 1.25 * 1.1 * 1.1 * 1.0 * d.acres := by
  have h1 : soil_factor d = 1.25 := by
    simp only [soil_factor]
    rw [if_pos ⟨hm1, hm2⟩, if_pos ⟨hph1, hph2⟩]
    norm_num
  have h2 : temp_factor d = 1.1 := by
    simp only [temp_factor]
    rw [if_pos ⟨ht1, ht2⟩]
    norm_num
  have h3 : rainfall_factor d = 1.1 := by
    simp only [rainfall_factor]
    rw [if_pos ⟨hr1, hr2⟩]
    norm_num
  have h4 : nutrient_factor d = 1 := by
    simp only [nutrient_factor]
    rw [if_neg (not_lt.mpr hn), if_neg (not_lt.mpr hp), if_neg (not_lt.mpr hk)]
    norm_num
  simp only [rule_based_yield_prediction, h1, h2, h3, h4]
  norm_num

/-- Witness for C6 (amended): the example input with nutrients exactly at
the thresholds yields 50 × 1.25 × 1.1 × 1.1 × 1.0 × 2. -/
theorem c6_optimal_band_yield_witness :
    (rule_based_yield_prediction thresholdInput).1 =
      50 * 1.25 * 1.1 * 1.1 * 1.0 * thresholdInput.acres :=
  c6_optimal_band_yield thresholdInput
    (by norm_num [thresholdInput, exampleInput])
    (by norm_num [thresholdInput, exampleInput])
    (by norm_num [thresholdInput, exampleInput])
    (by norm_num [thresholdInput, exampleInput])
    (by norm_num [thresholdInput, exampleInput])
    (by norm_num [thresholdInput, exampleInput])
    (by norm_num [thresholdInput, exampleInput])
    (by norm_num [thresholdInput, exampleInput])
    (by norm_num [thresholdInput, exampleInput])
    (by norm_num [thresholdInput, exampleInput])
    (by norm_num [thresholdInput, exampleInput])

/-- Claim C7: for every conditions record the synthesized alert list is
non-empty, contains the unconditional Seasonal Nutrient Check alert, is
sorted ascending by priority, and the sort is stable — the subsequence of
alerts at each priority keeps its insertion order. -/
theorem c7_alerts_sorted_nonempty (c : Conditions) :
    1 ≤ (synthesize_alerts c).length ∧
    nutrient_check_alert ∈ synthesize_alerts c ∧
    (synthesize_alerts c).Pairwise (fun a b => a.priority ≤ b.priority) ∧
    ∀ p : ℕ, (synthesize_alerts c).filter (fun x => x.priority == p) =
      (raw_alerts c).filter (fun x => x.priority == p) := by
  have hperm := sortByPriority_perm (raw_alerts c)
  have hmem : nutrient_check_alert ∈ raw_alerts c := nutrient_check_mem_raw c
  refine ⟨?_, ?_, sortByPriority_pairwise _, fun p => sortByPriority_filter _ p⟩
  · have hpos : 0 < (raw_alerts c).length :=
      List.length_pos.mpr (List.ne_nil_of_mem hmem)
    unfold synthesize_alerts
    rw [hperm.length_eq]
    exact hpos
  · exact hperm.mem_iff.mpr hmem

/-- Witness for C7: instantiation at the hardcoded conditions record. -/
theorem c7_alerts_sorted_nonempty_witness :
    nutrient_check_alert ∈ synthesize_alerts mock_conditions :=
  (c7_alerts_sorted_nonempty mock_conditions).2.1

/-- Claim C8: for every crop-health observation the rule-based health score
lies in [0,1] and the rule-based confidence is exactly 0.75. -/
theorem c8_health_score_clamped (d : CropHealthInput) :
    0 ≤ (rule_based_health_analysis d).1 ∧
    (rule_based_health_analysis d).1 ≤ 1 ∧
    (rule_based_health_analysis d).2 = 0.75 :=
  ⟨le_max_left 0 _, max_le (by norm_num) (min_le_left _ _), rfl⟩

/-- Witness for C8: the bound holds at the extreme observation with
NDVI = -1 and temperature = 60. -/
theorem c8_health_score_clamped_witness :
    0 ≤ (rule_based_health_analysis extremeInput).1 ∧
    (rule_based_health_analysis extremeInput).1 ≤ 1 ∧
    (rule_based_health_analysis extremeInput).2 = 0.75 :=
  c8_health_score_clamped extremeInput

/-- Claim C9: the score-to-status map is the top-down threshold chain —
score ≥ 0.8 excellent, else ≥ 0.65 good, else ≥ 0.5 moderate, else ≥ 0.3
poor, else critical — and at the boundary 0.8 maps to excellent while
0.79999 maps to good. -/
theorem c9_status_thresholds (s : ℚ) :
    (0.8 ≤ s → health_status_of s = "excellent") ∧
    (0.65 ≤ s → s < 0.8 → health_status_of s = "good") ∧
    (0.5 ≤ s → s < 0.65 → health_status_of s = "moderate") ∧
    (0.3 ≤ s → s < 0.5 → health_status_of s = "poor") ∧
    (s < 0.3 → health_status_of s = "critical") ∧
    health_status_of 0.8 = "excellent" ∧
    health_status_of 0.79999 = "good" := by
  unfold health_status_of
  refine ⟨fun h => ?_, fun h1 h2 => ?_, fun h1 h2 => ?_, fun h1 h2 => ?_,
    fun h => ?_, by norm_num, by norm_num⟩
  · rw [if_pos h]
  · rw [if_neg (not_le.mpr h2), if_pos h1]
  · rw [if_neg (not_le.mpr (h2.trans (by norm_num))),
      if_neg (not_le.mpr h2), if_pos h1]
  · rw [if_neg (not_le.mpr (h2.trans (by norm_num))),
      if_neg (not_le.mpr (h2.trans (by norm_num))),
      if_neg (not_le.mpr h2), if_pos h1]
  · rw [if_neg (not_le.mpr (h.trans (by norm_num))),
      if_neg (not_le.mpr (h.trans (by norm_num))),
      if_neg (not_le.mpr (h.trans (by norm_num))),
      if_neg (not_le.mpr h)]

/-- Witness for C9: a score of 0.9 is classified excellent. -/
theorem c9_status_thresholds_witness : health_status_of 0.9 = "excellent" :=
  (c9_status_thresholds 0.9).1 (by norm_num)

/-- Claim C10: `generate_alerts` evaluates the hardcoded conditions record
(temperature 35.5, humidity 45, soil moisture 25, rainfall forecast 0, wind
speed 20) for every caller, so every call returns the same four alerts —
heat-stress weather/high priority 1, low-soil-moisture irrigation/high
priority 2, high-wind weather/medium priority 3, nutrient-check disease/low
priority 4 — independent of the input. -/
theorem c10_alerts_independent_of_caller (fid : ℤ) (now : ℕ) :
    (generate_alerts fid now).conditions =
      { temperature := 35.5, humidity := 45, soil_moisture := 25,
        rainfall_forecast := 0, wind_speed := 20 } ∧
    ((generate_alerts fid now).alerts.map
        fun a => (a.title, a.type, a.severity, a.priority)) =
      [("Heat Stress Warning", "weather", "high", 1),
       ("Low Soil Moisture Alert", "irrigation", "high", 2),
       ("High Wind Advisory", "weather", "medium", 3),
       ("Seasonal Nutrient Check", "disease", "low", 4)] ∧
    ∀ (fid2 : ℤ) (now2 : ℕ),
      (generate_alerts fid now).alerts = (generate_alerts fid2 now2).alerts := by
  refine ⟨rfl, ?_, fun _ _ => rfl⟩
  norm_num [generate_alerts, synthesize_alerts, raw_alerts, mock_conditions,
    sortByPriority, insertByPriority, nutrient_check_alert]
  try decide

/-- Witness for C10: the alert summary of the call with farmer id 1 at clock
reading 0. -/
theorem c10_alerts_independent_of_caller_witness :
    ((generate_alerts 1 0).alerts.map
        fun a => (a.title, a.type, a.severity, a.priority)) =
      [("Heat Stress Warning", "weather", "high", 1),
       ("Low Soil Moisture Alert", "irrigation", "high", 2),
       ("High Wind Advisory", "weather", "medium", 3),
       ("Seasonal Nutrient Check", "disease", "low", 4)] :=
  (c10_alerts_independent_of_caller 1 0).2.1

end AgriCore
